import Mathlib

/-!
Verification of the question deduplication and retrieval subsystem of the
AptWise backend (`src/aptwise/utils/qdrant_service.py` and
`src/aptwise/utils/updation_service.py`).

The Python code is shallowly embedded: pure helpers become Lean functions on
`String` / `List Char`; floating-point similarity scores are modelled as exact
rationals (`Rat`), which is faithful for the threshold comparisons at stake;
the effectful boundary (the Qdrant client, the embedding model, exceptions
caught by `try/except` blocks) is modelled by explicit parameters: a `client`
connectivity flag, environment-supplied search hits, an `embed` function, and
`Option String` slots for an exception raised inside a given `try` block
(`none` = normal execution, `some msg` = an exception with message `msg`).
-/

/-! ## Python string primitives

`str.strip()` removes leading/trailing ASCII whitespace characters
(space, tab, newline, carriage return, vertical tab, form feed);
`str.lower()` lowercases (modelled on the ASCII range, which is what the
question corpus uses). -/

/-- Characters removed by Python `str.strip()` (ASCII whitespace). -/
def pyIsSpace (c : Char) : Bool :=
  c = ' ' || c = '\t' || c = '\n' || c = '\r' || c = '\x0b' || c = '\x0c'

/-- Leading-whitespace removal, i.e. Python `str.lstrip()`. -/
def lstripL (l : List Char) : List Char := l.dropWhile pyIsSpace

/-- Trailing-whitespace removal, i.e. Python `str.rstrip()`. -/
def rstripL (l : List Char) : List Char := List.rdropWhile pyIsSpace l

/-- Python `str.strip()` on a character list. -/
def pyStripL (l : List Char) : List Char := lstripL (rstripL l)

/-- Python `str.strip()`. -/
def pyStrip (s : String) : String := ⟨pyStripL s.data⟩

/-- Python `str.lower()` on one character (ASCII range: `A`-`Z` map to
`a`-`z`, all other characters are unchanged). -/
def pyToLower (c : Char) : Char :=
  if 65 ≤ c.toNat ∧ c.toNat ≤ 90 then Char.ofNat (c.toNat + 32) else c

/-- Python `str.lower()` on a character list. -/
def pyLowerL (l : List Char) : List Char := l.map pyToLower

/-- Python `str.lower()`. -/
def pyLower (s : String) : String := ⟨pyLowerL s.data⟩

/-! ## MD5 (RFC 1321)

Models Python `hashlib.md5(content.encode('utf-8')).hexdigest()`.
All 32-bit machine arithmetic is done on `Nat` with explicit reduction
modulo `2 ^ 32`. -/

/-- Truncate to a 32-bit word. -/
def w32 (n : Nat) : Nat := n % 4294967296

/-- 32-bit modular addition. -/
def wadd (a b : Nat) : Nat := w32 (a + b)

/-- 32-bit bitwise complement (for inputs below `2 ^ 32`). -/
def wnot (a : Nat) : Nat := 4294967295 - a

/-- 32-bit left rotation by `s` bits. -/
def rotl32 (x s : Nat) : Nat := w32 (x * 2 ^ s) + x / 2 ^ (32 - s)

/-- UTF-8 encoding of one character, as bytes (each a `Nat` below 256). -/
def utf8Bytes (c : Char) : List Nat :=
  let n := c.toNat
  if n < 128 then [n]
  else if n < 2048 then [192 + n / 64, 128 + n % 64]
  else if n < 65536 then [224 + n / 4096, 128 + n / 64 % 64, 128 + n % 64]
  else [240 + n / 262144, 128 + n / 4096 % 64, 128 + n / 64 % 64, 128 + n % 64]

/-- Python `s.encode('utf-8')`, as a byte list. -/
def strBytes (s : String) : List Nat := (s.data.map utf8Bytes).flatten

/-- The 64 MD5 sine-table constants `K` of RFC 1321. -/
def md5K : List Nat :=
  [0xd76aa478, 0xe8c7b756, 0x242070db, 0xc1bdceee,
   0xf57c0faf, 0x4787c62a, 0xa8304613, 0xfd469501,
   0x698098d8, 0x8b44f7af, 0xffff5bb1, 0x895cd7be,
   0x6b901122, 0xfd987193, 0xa679438e, 0x49b40821,
   0xf61e2562, 0xc040b340, 0x265e5a51, 0xe9b6c7aa,
   0xd62f105d, 0x02441453, 0xd8a1e681, 0xe7d3fbc8,
   0x21e1cde6, 0xc33707d6, 0xf4d50d87, 0x455a14ed,
   0xa9e3e905, 0xfcefa3f8, 0x676f02d9, 0x8d2a4c8a,
   0xfffa3942, 0x8771f681, 0x6d9d6122, 0xfde5380c,
   0xa4beea44, 0x4bdecfa9, 0xf6bb4b60, 0xbebfbc70,
   0x289b7ec6, 0xeaa127fa, 0xd4ef3085, 0x04881d05,
   0xd9d4d039, 0xe6db99e5, 0x1fa27cf8, 0xc4ac5665,
   0xf4292244, 0x432aff97, 0xab9423a7, 0xfc93a039,
   0x655b59c3, 0x8f0ccc92, 0xffeff47d, 0x85845dd1,
   0x6fa87e4f, 0xfe2ce6e0, 0xa3014314, 0x4e0811a1,
   0xf7537e82, 0xbd3af235, 0x2ad7d2bb, 0xeb86d391]

/-- The 64 per-round MD5 left-rotation amounts of RFC 1321. -/
def md5S : List Nat :=
  [7, 12, 17, 22, 7, 12, 17, 22, 7, 12, 17, 22, 7, 12, 17, 22,
   5,  9, 14, 20, 5,  9, 14, 20, 5,  9, 14, 20, 5,  9, 14, 20,
   4, 11, 16, 23, 4, 11, 16, 23, 4, 11, 16, 23, 4, 11, 16, 23,
   6, 10, 15, 21, 6, 10, 15, 21, 6, 10, 15, 21, 6, 10, 15, 21]

/-- MD5 padding: append `0x80`, zero bytes to reach length 56 mod 64, then
the original bit length as 8 little-endian bytes. -/
def md5Pad (msg : List Nat) : List Nat :=
  let len := msg.length
  let zeros := (119 - len % 64) % 64
  let bitLen := (8 * len) % 2 ^ 64
  msg ++ [128] ++ List.replicate zeros 0 ++
    ((List.range 8).map fun i => bitLen / 256 ^ i % 256)

/-- Split a byte list into 64-byte blocks. -/
def chunks64 : List Nat → List (List Nat)
  | [] => []
  | b :: rest => ((b :: rest).take 64) :: chunks64 ((b :: rest).drop 64)
termination_by l => l.length
decreasing_by simp [List.length_drop]; omega

/-- Decode one 64-byte block into sixteen little-endian 32-bit words. -/
def blockWords (block : List Nat) : List Nat :=
  (List.range 16).map fun j =>
    block.getD (4 * j) 0 + 256 * block.getD (4 * j + 1) 0 +
      65536 * block.getD (4 * j + 2) 0 + 16777216 * block.getD (4 * j + 3) 0

/-- One of the 64 MD5 rounds, acting on the `(a, b, c, d)` state. -/
def md5Round (m : List Nat) (st : Nat × Nat × Nat × Nat) (i : Nat) :
    Nat × Nat × Nat × Nat :=
  let (a, b, c, d) := st
  let fg : Nat × Nat :=
    if i < 16 then ((b &&& c) ||| (wnot b &&& d), i)
    else if i < 32 then ((d &&& b) ||| (wnot d &&& c), (5 * i + 1) % 16)
    else if i < 48 then (b ^^^ c ^^^ d, (3 * i + 5) % 16)
    else (c ^^^ (b ||| wnot d), (7 * i) % 16)
  let f := wadd (wadd (wadd fg.1 a) (md5K.getD i 0)) (m.getD fg.2 0)
  (d, wadd b (rotl32 f (md5S.getD i 0)), b, c)

/-- Process one block, updating the running MD5 state. -/
def md5Block (st : Nat × Nat × Nat × Nat) (block : List Nat) :
    Nat × Nat × Nat × Nat :=
  let m := blockWords block
  let r := (List.range 64).foldl (md5Round m) st
  (wadd st.1 r.1, wadd st.2.1 r.2.1, wadd st.2.2.1 r.2.2.1,
   wadd st.2.2.2 r.2.2.2)

/-- Hex digit character for a value below 16 (lowercase, as Python
`hexdigest()` produces). -/
def hexDigit (n : Nat) : Char :=
  if n < 10 then Char.ofNat (48 + n) else Char.ofNat (87 + n)

/-- Two lowercase hex digits of one byte. -/
def byteHex (b : Nat) : List Char := [hexDigit (b / 16), hexDigit (b % 16)]

/-- Little-endian byte decomposition of a 32-bit word. -/
def wordLEBytes (w : Nat) : List Nat :=
  [w % 256, w / 256 % 256, w / 65536 % 256, w / 16777216 % 256]

/-- MD5 hex digest of a string's UTF-8 bytes: models Python
`hashlib.md5(s.encode('utf-8')).hexdigest()`. -/
def md5hex (s : String) : String :=
  let st := (chunks64 (md5Pad (strBytes s))).foldl md5Block
    (0x67452301, 0xefcdab89, 0x98badcfe, 0x10325476)
  ⟨((wordLEBytes st.1 ++ wordLEBytes st.2.1 ++ wordLEBytes st.2.2.1 ++
      wordLEBytes st.2.2.2).map byteHex).flatten⟩

/-! ## Vector retrieval service (`qdrant_service.py`)

The Qdrant client, the sentence-transformer model, and exceptions raised
inside `try` blocks are the effectful inputs; they appear as explicit
parameters (`client : Bool` for whether `_initialize_qdrant_client`
succeeded, `embed` for `generate_embedding`, `Option String` exception
slots). Each operation also returns the list of points it upserts, making
the side effect on the index visible to the theorems. -/

/-- Payload-bearing search hit as returned by the Qdrant server (its `score`
is the cosine similarity). -/
structure RawHit where
  id : String
  question : String
  answer : String
  score : Rat
deriving DecidableEq

/-- Formatted search result built by `QdrantVectorService.search`
(lines 345-353). -/
structure SearchResult where
  id : String
  question : String
  answer : String
  similarity : Rat
  rank : Nat
deriving DecidableEq

/-- Input document for indexing: the `question` and `answer` fields read by
`index_documents` (missing keys default to the empty string). -/
structure Doc where
  question : String
  answer : String
deriving DecidableEq

/-- Point sent to the index by `index_documents` (lines 279-287): id,
embedding vector, and the payload fields. -/
structure PointStruct where
  id : String
  vector : List Rat
  question : String
  answer : String
  source_index : Nat
deriving DecidableEq

/-- `QdrantVectorService._generate_deterministic_id` (lines 79-92):
`hashlib.md5(f"{question}|{answer}".encode('utf-8')).hexdigest()`. -/
def _generate_deterministic_id (question answer : String) : String :=
  md5hex (question ++ "|" ++ answer)

/-- `QdrantVectorService.search` (lines 313-360). `client` is whether the
Qdrant client was initialized; `exc` a possible exception inside the `try`
(caught, returning `[]`); `hits` what the Qdrant k-NN query returns for this
query text (already ranked by descending score, truncated by the server to
`limit = n_results`). Results are formatted with `rank = i + 1`. -/
def search (client : Bool) (exc : Option String) (hits : List RawHit)
    (query_text : String) (n_results : Nat) : List SearchResult :=
  if client = false then []
  else match exc with
    | some _ => []
    | none =>
        ((hits.take n_results).enum).map fun p =>
          ⟨p.2.id, p.2.question, p.2.answer, p.2.score, p.1 + 1⟩

/-- Loop of `index_documents` (lines 256-294): per document, strip the
`question` and `answer`, skip empty questions, compute the deterministic id,
skip ids already seen in this batch, embed the question, and build the
point. `i` is the running `enumerate` index and `seen_ids` the accumulated
id set. -/
def index_points_aux (embed : String → List Rat) :
    List Doc → Nat → List String → List PointStruct
  | [], _, _ => []
  | doc :: docs, i, seen_ids =>
    let question := pyStrip doc.question
    let answer := pyStrip doc.answer
    if question = "" then index_points_aux embed docs (i + 1) seen_ids
    else
      let point_id := _generate_deterministic_id question answer
      if point_id ∈ seen_ids then index_points_aux embed docs (i + 1) seen_ids
      else
        ⟨point_id, embed question, question, answer, i⟩ ::
          index_points_aux embed docs (i + 1) (point_id :: seen_ids)

/-- Points accumulated by one `index_documents` call before the single bulk
upsert. -/
def index_points (embed : String → List Rat) (documents : List Doc) :
    List PointStruct :=
  index_points_aux embed documents 0 []

/-- `QdrantVectorService.index_documents` (lines 237-311). Returns the
boolean result together with the points actually upserted (empty when the
client is missing, an exception occurs, or no valid points resulted). -/
def index_documents (client : Bool) (exc : Option String)
    (embed : String → List Rat) (documents : List Doc) :
    Bool × List PointStruct :=
  if client = false then (false, [])
  else match exc with
    | some _ => (false, [])
    | none =>
        let points := index_points embed documents
        if points = [] then (false, []) else (true, points)

/-- `QdrantVectorService.create_collection` (lines 94-128): fails without a
client; otherwise succeeds (creating the collection if absent) unless the
`try` body raises. -/
def create_collection (client : Bool) (exc : Option String) : Bool :=
  if client = false then false
  else match exc with
    | some _ => false
    | none => true

/-- `QdrantVectorService.clear_collection` (lines 130-164): fails without a
client; otherwise deletes and recreates the collection unless the `try`
body raises. -/
def clear_collection (client : Bool) (exc : Option String) : Bool :=
  if client = false then false
  else match exc with
    | some _ => false
    | none => true

/-- `QdrantVectorService.collection_exists_and_has_data` (lines 166-208):
false without a client or when the collection is not listed; otherwise reads
`vectors_count`, falling back to `points_count`, then to `0`, and returns
whether the count is positive. -/
def collection_exists_and_has_data (client collectionListed : Bool)
    (vectors_count points_count : Option Nat) : Bool :=
  if client = false then false
  else if collectionListed = false then false
  else decide (0 < ((vectors_count).getD ((points_count).getD 0)))

/-- Deduplication pass of `load_all_data_files` (lines 484-495): keep the
first document for each `f"{question}|{answer}"` key over stripped fields. -/
def dedup_by_content : List Doc → List String → List Doc
  | [], _ => []
  | doc :: docs, seen_content =>
    let content_key := pyStrip doc.question ++ "|" ++ pyStrip doc.answer
    if content_key ∈ seen_content then dedup_by_content docs seen_content
    else doc :: dedup_by_content docs (content_key :: seen_content)

/-- Environment of one `load_all_data_files` call: client connectivity, the
collection listing and counts the index reports, whether the data directory
exists, the parsed documents of each `.json` file in the directory (a file
with a parse error contributes `[]`, as `load_data_from_json` returns), the
embedding function, and exception slots for the nested `try` blocks. -/
structure LoadEnv where
  client : Bool
  collectionListed : Bool
  vectors_count : Option Nat
  points_count : Option Nat
  dirExists : Bool
  files : List (List Doc)
  createExc : Option String
  indexExc : Option String
  embed : String → List Rat
  exc : Option String

/-- The `collection_exists_and_has_data` check as seen by this environment. -/
def LoadEnv.hasData (e : LoadEnv) : Bool :=
  collection_exists_and_has_data e.client e.collectionListed
    e.vectors_count e.points_count

/-- `QdrantVectorService.load_all_data_files` (lines 427-509): missing data
directory is a hard failure; without `force_reload`, existing data
short-circuits to success; then the collection is created (clearing it first
on `force_reload`, a failure there only logged), all files' documents are
concatenated, deduplicated by content key, and indexed. Returns the boolean
result with the upserted points. -/
def load_all_data_files (e : LoadEnv) (force_reload : Bool) :
    Bool × List PointStruct :=
  match e.exc with
  | some _ => (false, [])
  | none =>
    if e.dirExists = false then (false, [])
    else if force_reload = false ∧ e.hasData = true then (true, [])
    else if create_collection e.client e.createExc = false then (false, [])
    else
      let all_documents := e.files.flatten
      if all_documents = [] then (false, [])
      else
        let unique_docs := dedup_by_content all_documents []
        index_documents e.client e.indexExc e.embed unique_docs

/-! ## Question updation service (`updation_service.py`) -/

/-- Trailing punctuation stripped by `_normalize_question`:
`'?'`, `'.'`, `'!'`. -/
def isTrailPunct (c : Char) : Bool := c = '?' || c = '.' || c = '!'

/-- The `while normalized and normalized[-1] in '?.!'` loop of
`_normalize_question` (lines 52-53): repeatedly drop the last character
while it is trailing punctuation. -/
def dropTrailingPunct (l : List Char) : List Char :=
  List.rdropWhile isTrailPunct l

/-- `QuestionUpdationService._normalize_question` (lines 38-54):
`question.strip().lower()`, then the trailing-punctuation loop, then a final
`.strip()`. -/
def _normalize_question (question : String) : String :=
  ⟨pyStripL (dropTrailingPunct (pyLowerL (pyStripL question.data)))⟩

/-- Mutable state of `QuestionUpdationService`: the similarity threshold. -/
structure QuestionUpdationService where
  similarity_threshold : Rat
deriving DecidableEq

/-- `QuestionUpdationService.__init__` (lines 17-22): the threshold defaults
to `0.85`. -/
def QuestionUpdationService.mkDefault : QuestionUpdationService := ⟨0.85⟩

/-- First loop of `check_question_exists` (lines 86-98): return the first
result (in list order, which is rank order) whose similarity meets the
threshold, inclusively. -/
def findSimilar (threshold : Rat) : List SearchResult → Option SearchResult
  | [] => none
  | r :: rs =>
    if threshold ≤ r.similarity then some r else findSimilar threshold rs

/-- Second loop of `check_question_exists` (lines 100-109): return the first
result whose normalized question text equals the normalized query. -/
def findNormalizedMatch (question : String) :
    List SearchResult → Option SearchResult
  | [] => none
  | r :: rs =>
    if _normalize_question question = _normalize_question r.question then
      some r
    else findNormalizedMatch question rs

/-- Decision body of `check_question_exists` (lines 81-112), applied to the
search results: empty results short-circuit to `(False, None)`; else the
first threshold match wins; else the first exact normalized match; else
`(False, None)`. -/
def check_question_exists_on (question : String) (threshold : Rat)
    (search_results : List SearchResult) : Bool × Option SearchResult :=
  if search_results = [] then (false, none)
  else match findSimilar threshold search_results with
    | some r => (true, some r)
    | none =>
      match findNormalizedMatch question search_results with
      | some r => (true, some r)
      | none => (false, none)

/-- `QuestionUpdationService.check_question_exists` (lines 56-116): a `None`
threshold defaults to the service's `similarity_threshold`; the vector
service is searched with `n_results = 5`; the `except` branch (returning
`(False, None)`) is unreachable in this model because `search` already
converts its failures to `[]`. -/
def check_question_exists (svc : QuestionUpdationService) (client : Bool)
    (searchExc : Option String) (hits : List RawHit) (question : String)
    (threshold : Option Rat) : Bool × Option SearchResult :=
  let t := threshold.getD svc.similarity_threshold
  check_question_exists_on question t (search client searchExc hits question 5)

/-- Document built by `store_question` (lines 137-147), restricted to the
fields `index_documents` reads: the stripped question, and
`answer.strip() if answer else ""`. -/
def store_document (question answer : String) : Doc :=
  ⟨pyStrip question, if answer = "" then "" else pyStrip answer⟩

/-- `QuestionUpdationService.store_question` (lines 118-162): reject a
question that is empty after stripping (no side effect), otherwise delegate
the single-document batch to `index_documents`. Returns the boolean result
with the upserted points. -/
def store_question (client : Bool) (exc : Option String)
    (embed : String → List Rat) (question answer : String) :
    Bool × List PointStruct :=
  if pyStrip question = "" then (false, [])
  else index_documents client exc embed [store_document question answer]

/-- Result record of `check_and_store_question` (lines 182-229). The Python
dictionary's `exists` key is rendered `existsB`; `error` is only present
(`some`) in the exception branch. -/
structure StoreResult where
  question : String
  existsB : Bool
  stored : Bool
  similar_question : Option String
  similarity_score : Rat
  action_taken : String
  error : Option String
deriving DecidableEq

/-- `QuestionUpdationService.check_and_store_question` (lines 164-229).
`exc` models an unexpected exception inside the operation's own `try`
(caught at the top, producing the `error` record). Otherwise: check
existence, record the matched question and similarity, store unless a match
was found and `force_store` is off, and tag the action taken. Returns the
record with the upserted points. -/
def check_and_store_question (svc : QuestionUpdationService) (client : Bool)
    (searchExc storeExc : Option String) (hits : List RawHit)
    (embed : String → List Rat) (question answer : String)
    (force_store : Bool) (exc : Option String) :
    StoreResult × List PointStruct :=
  match exc with
  | some e => (⟨question, false, false, none, 0, "error", some e⟩, [])
  | none =>
    let ed := check_question_exists svc client searchExc hits question none
    let existsB := ed.1
    let similar_question := ed.2.map SearchResult.question
    let similarity_score := match ed.2 with
      | some d => d.similarity
      | none => 0
    if existsB = false || force_store then
      let sp := store_question client storeExc embed question answer
      if sp.1 then
        if existsB && force_store then
          (⟨question, existsB, sp.1, similar_question, similarity_score,
            "stored_despite_similarity", none⟩, sp.2)
        else
          (⟨question, existsB, sp.1, similar_question, similarity_score,
            "stored_new_question", none⟩, sp.2)
      else
        (⟨question, existsB, sp.1, similar_question, similarity_score,
          "storage_failed", none⟩, sp.2)
    else
      (⟨question, existsB, false, similar_question, similarity_score,
        "skipped_similar_exists", none⟩, [])

/-- `QuestionUpdationService.update_similarity_threshold` (lines 269-288):
accept exactly the values in `[0.0, 1.0]`, leaving the stored threshold
unchanged on rejection. -/
def update_similarity_threshold (svc : QuestionUpdationService)
    (new_threshold : Rat) : Bool × QuestionUpdationService :=
  if 0 ≤ new_threshold ∧ new_threshold ≤ 1 then (true, ⟨new_threshold⟩)
  else (false, svc)

/-! ## Helper lemmas -/

lemma strData_append (s t : String) : (s ++ t).data = s.data ++ t.data := by
  cases s; cases t; rfl

lemma dropWhile_map_comm (f : α → β) (p : β → Bool) (l : List α) :
    (l.map f).dropWhile p = (l.dropWhile fun a => p (f a)).map f := by
  induction l with
  | nil => rfl
  | cons a l ih =>
      simp only [List.map_cons, List.dropWhile_cons]
      split <;> simp_all

lemma dropWhile_congr_of_eq {p q : α → Bool} (h : ∀ a, p a = q a)
    (l : List α) : l.dropWhile p = l.dropWhile q := by
  induction l with
  | nil => rfl
  | cons a l ih => simp only [List.dropWhile_cons, h a, ih]

lemma dropWhile_append_split (p : α → Bool) (a b : List α) :
    (a ++ b).dropWhile p =
      if (a.dropWhile p).isEmpty then b.dropWhile p else a.dropWhile p ++ b := by
  induction a with
  | nil => simp
  | cons x xs ih =>
      simp only [List.cons_append, List.dropWhile_cons]
      split
      · rw [ih]
      · simp [List.isEmpty]

lemma dropWhile_append_of_forall (p : α → Bool) (a b : List α)
    (h : ∀ x ∈ a, p x) : (a ++ b).dropWhile p = b.dropWhile p := by
  rw [dropWhile_append_split, if_pos]
  rw [List.isEmpty_iff, List.dropWhile_eq_nil_iff]
  exact h

lemma toNat_ofNat_of_lt (n : Nat) (h : n < 55296) : (Char.ofNat n).toNat = n := by
  unfold Char.ofNat
  rw [dif_pos (Or.inl h)]
  rfl

lemma pyIsSpace_eq_false_of_gt (c : Char) (h : 32 < c.toNat) :
    pyIsSpace c = false := by
  simp only [pyIsSpace, Bool.or_eq_false_iff, decide_eq_false_iff_not]
  refine ⟨⟨⟨⟨⟨?_, ?_⟩, ?_⟩, ?_⟩, ?_⟩, ?_⟩ <;>
    · rintro rfl
      revert h
      decide

lemma pyIsSpace_pyToLower (c : Char) :
    pyIsSpace (pyToLower c) = pyIsSpace c := by
  unfold pyToLower
  split
  · next h =>
      rw [pyIsSpace_eq_false_of_gt c (by omega)]
      exact pyIsSpace_eq_false_of_gt _
        (by rw [toNat_ofNat_of_lt _ (by omega)]; omega)
  · rfl

lemma lstripL_map_pyToLower (l : List Char) :
    lstripL (pyLowerL l) = pyLowerL (lstripL l) := by
  unfold lstripL pyLowerL
  rw [dropWhile_map_comm,
    dropWhile_congr_of_eq (fun c => pyIsSpace_pyToLower c)]

lemma rstripL_map_pyToLower (l : List Char) :
    rstripL (pyLowerL l) = pyLowerL (rstripL l) := by
  unfold rstripL pyLowerL List.rdropWhile
  rw [← List.map_reverse, dropWhile_map_comm,
    dropWhile_congr_of_eq (fun c => pyIsSpace_pyToLower c), ← List.map_reverse]

lemma pyStripL_map_pyToLower (l : List Char) :
    pyStripL (pyLowerL l) = pyLowerL (pyStripL l) := by
  unfold pyStripL
  rw [rstripL_map_pyToLower, lstripL_map_pyToLower]

lemma isTrailPunct_not_space {c : Char} (h : isTrailPunct c = true) :
    pyIsSpace c = false := by
  have : (c = '?' ∨ c = '.') ∨ c = '!' := by
    simpa [isTrailPunct] using h
  rcases this with ⟨rfl | rfl⟩ | rfl <;> decide

lemma pyToLower_of_isTrailPunct {c : Char} (h : isTrailPunct c = true) :
    pyToLower c = c := by
  have : (c = '?' ∨ c = '.') ∨ c = '!' := by
    simpa [isTrailPunct] using h
  rcases this with ⟨rfl | rfl⟩ | rfl <;> decide

lemma rstripL_append_of_punct (a b : List Char) (hb : b ≠ [])
    (h : ∀ c ∈ b, isTrailPunct c = true) : rstripL (a ++ b) = a ++ b := by
  unfold rstripL
  rw [List.rdropWhile_eq_self_iff]
  intro hl
  rw [List.getLast_append_of_ne_nil hb]
  intro hsp
  have hns := isTrailPunct_not_space (h _ (List.getLast_mem hb))
  rw [hns] at hsp
  exact Bool.false_ne_true hsp

lemma lstripL_append_of_punct (a b : List Char)
    (h : ∀ c ∈ b, isTrailPunct c = true) :
    lstripL (a ++ b) = lstripL a ++ b := by
  unfold lstripL
  rw [dropWhile_append_split]
  split
  · next he =>
      rw [List.isEmpty_iff] at he
      rw [he, List.nil_append]
      cases b with
      | nil => rfl
      | cons c cs =>
          rw [List.dropWhile_cons, isTrailPunct_not_space
            (h c (List.mem_cons_self c cs))]
          simp
  · rfl

lemma dropTrailingPunct_append_of_punct (a b : List Char)
    (h : ∀ c ∈ b, isTrailPunct c = true) :
    dropTrailingPunct (a ++ b) = dropTrailingPunct a := by
  unfold dropTrailingPunct List.rdropWhile
  rw [List.reverse_append, dropWhile_append_of_forall]
  intro c hc
  exact h c (List.mem_reverse.mp hc)

lemma dropTrailingPunct_map_punct (a b : List Char)
    (h : ∀ c ∈ b, isTrailPunct c = true) :
    dropTrailingPunct (a ++ pyLowerL b) = dropTrailingPunct a := by
  apply dropTrailingPunct_append_of_punct
  intro c hc
  unfold pyLowerL at hc
  obtain ⟨d, hd, rfl⟩ := List.mem_map.mp hc
  rw [pyToLower_of_isTrailPunct (h d hd)]
  exact h d hd

lemma findSimilar_eq_find (t : Rat) (l : List SearchResult) :
    findSimilar t l = l.find? fun r => decide (t ≤ r.similarity) := by
  induction l with
  | nil => rfl
  | cons r rs ih =>
      by_cases h : t ≤ r.similarity <;>
        simp [findSimilar, List.find?_cons, h, ih]

lemma findSimilar_eq_none_of_lt {t : Rat} {l : List SearchResult}
    (h : ∀ r ∈ l, r.similarity < t) : findSimilar t l = none := by
  induction l with
  | nil => rfl
  | cons r rs ih =>
      rw [findSimilar, if_neg (not_le.mpr (h r (List.mem_cons_self r rs)))]
      exact ih fun x hx => h x (List.mem_cons_of_mem r hx)

lemma findNormalizedMatch_nil_of_eq_some {q : String}
    {l : List SearchResult} {r : SearchResult}
    (h : findNormalizedMatch q l = some r) : l ≠ [] := by
  intro hl
  rw [hl] at h
  exact Option.noConfusion h

lemma index_points_aux_invariant (embed : String → List Rat)
    (docs : List Doc) : ∀ i seen,
    (((index_points_aux embed docs i seen).map PointStruct.id).Nodup ∧
      ∀ x ∈ seen, x ∉ (index_points_aux embed docs i seen).map
        PointStruct.id) := by
  induction docs with
  | nil => simp [index_points_aux]
  | cons d ds ih =>
      intro i seen
      simp only [index_points_aux]
      split
      · exact ih (i + 1) seen
      · split
        · exact ih (i + 1) seen
        · next hq hmem =>
            constructor
            · simp only [List.map_cons, List.nodup_cons]
              exact ⟨(ih (i + 1) _).2 _ (List.mem_cons_self _ _),
                (ih (i + 1) _).1⟩
            · intro x hx
              simp only [List.map_cons, List.mem_cons, not_or]
              refine ⟨fun hxe => hmem (hxe ▸ hx), ?_⟩
              exact (ih (i + 1) _).2 x (List.mem_cons_of_mem _ hx)

lemma index_points_aux_mem (embed : String → List Rat) (docs : List Doc) :
    ∀ i seen pt, pt ∈ index_points_aux embed docs i seen →
      ∃ d ∈ docs, pt.question = pyStrip d.question ∧
        pt.answer = pyStrip d.answer := by
  induction docs with
  | nil => intro i seen pt h; exact absurd h (List.not_mem_nil pt)
  | cons d ds ih =>
      intro i seen pt h
      simp only [index_points_aux] at h
      split at h
      · obtain ⟨x, hx, hp⟩ := ih (i + 1) seen pt h
        exact ⟨x, List.mem_cons_of_mem d hx, hp⟩
      · split at h
        · obtain ⟨x, hx, hp⟩ := ih (i + 1) seen pt h
          exact ⟨x, List.mem_cons_of_mem d hx, hp⟩
        · rcases List.mem_cons.mp h with rfl | hmem
          · exact ⟨d, List.mem_cons_self d ds, rfl, rfl⟩
          · obtain ⟨x, hx, hp⟩ := ih (i + 1) _ pt hmem
            exact ⟨x, List.mem_cons_of_mem d hx, hp⟩

lemma index_points_aux_all_empty (embed : String → List Rat)
    (docs : List Doc) (h : ∀ d ∈ docs, pyStrip d.question = "") :
    ∀ i seen, index_points_aux embed docs i seen = [] := by
  induction docs with
  | nil => intro i seen; rfl
  | cons d ds ih =>
      intro i seen
      simp only [index_points_aux]
      rw [if_pos (h d (List.mem_cons_self d ds))]
      exact ih (fun x hx => h x (List.mem_cons_of_mem d hx)) (i + 1) seen

lemma append_sep_inj {l1 r1 l2 r2 : List Char} (h1 : '|' ∉ l1)
    (h2 : '|' ∉ l2) (h : l1 ++ '|' :: r1 = l2 ++ '|' :: r2) :
    l1 = l2 ∧ r1 = r2 := by
  induction l1 generalizing l2 with
  | nil =>
      cases l2 with
      | nil => simpa using h
      | cons c cs =>
          simp only [List.nil_append, List.cons_append, List.cons_eq_cons]
            at h
          exact absurd (h.1 ▸ List.mem_cons_self c cs) h2
  | cons c cs ih =>
      cases l2 with
      | nil =>
          simp only [List.cons_append, List.nil_append, List.cons_eq_cons]
            at h
          exact absurd (h.1 ▸ List.mem_cons_self c cs) h1
      | cons e es =>
          simp only [List.cons_append, List.cons_eq_cons] at h
          obtain ⟨rfl, h⟩ := h
          have := ih (fun hm => h1 (List.mem_cons_of_mem c hm))
            (fun hm => h2 (List.mem_cons_of_mem c hm)) h
          exact ⟨by rw [this.1], this.2⟩

/-! ## Claims -/

/-- C9: the similarity threshold starts at the default `0.85`, and
`update_similarity_threshold(new_threshold)` succeeds (returns `True` and
replaces the stored threshold) if and only if
`0.0 <= new_threshold <= 1.0`; every out-of-range value is rejected with
`False`, leaving the stored threshold unchanged. -/
theorem c9_similarity_threshold_update :
    QuestionUpdationService.mkDefault.similarity_threshold = 0.85 ∧
    (∀ svc t, (update_similarity_threshold svc t).1 = true ↔
      (0 ≤ t ∧ t ≤ 1)) ∧
    (∀ svc t, 0 ≤ t → t ≤ 1 →
      update_similarity_threshold svc t = (true, ⟨t⟩)) ∧
    (∀ svc t, ¬ (0 ≤ t ∧ t ≤ 1) →
      update_similarity_threshold svc t = (false, svc)) := by
  refine ⟨rfl, ?_, ?_, ?_⟩
  · intro svc t
    unfold update_similarity_threshold
    split <;> simp_all
  · intro svc t h1 h2
    unfold update_similarity_threshold
    rw [if_pos ⟨h1, h2⟩]
  · intro svc t h
    unfold update_similarity_threshold
    rw [if_neg h]

/-- Witness for C9 at the concrete thresholds `1` (accepted) and `3`
(rejected, state unchanged). -/
theorem c9_similarity_threshold_update_witness :
    update_similarity_threshold ⟨0.85⟩ 1 = (true, ⟨1⟩) ∧
    update_similarity_threshold ⟨0.85⟩ 3 = (false, ⟨0.85⟩) :=
  ⟨c9_similarity_threshold_update.2.2.1 ⟨0.85⟩ 1 (by decide) (by decide),
   c9_similarity_threshold_update.2.2.2 ⟨0.85⟩ 3 (by decide)⟩

/-- C7: with the index client unavailable (`client = false`), every public
operation returns its conservative default instead of raising: `search`
returns `[]`, `index_documents` and the collection-mutating calls return
`False`, `check_question_exists` returns `(False, None)`, and
`check_and_store_question` still returns a well-formed record (a failed
store, nothing upserted). -/
theorem c7_graceful_degradation :
    (∀ exc hits query n, search false exc hits query n = []) ∧
    (∀ exc embed docs, index_documents false exc embed docs = (false, [])) ∧
    (∀ exc, create_collection false exc = false) ∧
    (∀ exc, clear_collection false exc = false) ∧
    (∀ svc exc hits question threshold,
      check_question_exists svc false exc hits question threshold =
        (false, none)) ∧
    (∀ svc searchExc storeExc hits embed question answer force_store,
      check_and_store_question svc false searchExc storeExc hits embed
        question answer force_store none =
        (⟨question, false, false, none, 0, "storage_failed", none⟩, [])) := by
  refine ⟨fun _ _ _ _ => rfl, fun _ _ _ => rfl, fun _ => rfl, fun _ => rfl,
    fun _ _ _ _ _ => rfl, fun svc searchExc storeExc hits embed q a f => ?_⟩
  have hst : store_question false storeExc embed q a = (false, []) := by
    unfold store_question
    split
    · rfl
    · rfl
  have hce : check_question_exists svc false searchExc hits q none =
      (false, none) := rfl
  unfold check_and_store_question
  simp [hst, hce]

/-- C8: `load_all_data_files` short-circuits to `True` — performing no
embedding or indexing (no points upserted) — whenever `force_reload` is
off and the collection already has data; and a missing data directory is a
hard failure returning `False`, regardless of the other conditions
(including the has-data short-circuit, since the directory check comes
first, and including an exception environment, where the result is `False`
as well). -/
theorem c8_load_all_short_circuit :
    (∀ (e : LoadEnv) (force_reload : Bool), e.dirExists = false →
      (load_all_data_files e force_reload).1 = false) ∧
    (∀ (e : LoadEnv), e.exc = none → e.dirExists = false →
      load_all_data_files e false = (false, []) ∧
      load_all_data_files e true = (false, [])) ∧
    (∀ (e : LoadEnv), e.exc = none → e.dirExists = true →
      e.hasData = true → load_all_data_files e false = (true, [])) := by
  refine ⟨fun e f hd => ?_, fun e he hd => ?_, fun e he hd hdat => ?_⟩
  · unfold load_all_data_files
    cases he : e.exc with
    | some m => rfl
    | none => rw [if_pos hd]
  · unfold load_all_data_files
    simp [he, hd]
  · unfold load_all_data_files
    simp [he, hd, hdat]

/-- Witness for C8: a concrete environment with a missing directory fails,
and one with data present (3 vectors reported) and the directory in place
short-circuits to success with nothing indexed. -/
theorem c8_load_all_short_circuit_witness :
    load_all_data_files
      ⟨true, true, some 3, none, false, [], none, none, fun _ => [], none⟩
      false = (false, []) ∧
    load_all_data_files
      ⟨true, true, some 3, none, true, [], none, none, fun _ => [], none⟩
      false = (true, []) :=
  ⟨(c8_load_all_short_circuit.2.1
      ⟨true, true, some 3, none, false, [], none, none, fun _ => [], none⟩
      rfl rfl).1,
   c8_load_all_short_circuit.2.2
      ⟨true, true, some 3, none, true, [], none, none, fun _ => [], none⟩
      rfl rfl (by decide)⟩

/-- C6: `store_question` with a question that is empty after stripping
returns `False` with no side effect (nothing reaches the index), and
`index_documents` on a batch whose questions are all empty or
whitespace-only skips each document and returns `False` (zero valid
points), in both cases as a total, non-raising function. -/
theorem c6_empty_question_rejection :
    (∀ client exc embed question answer, pyStrip question = "" →
      store_question client exc embed question answer = (false, [])) ∧
    (∀ embed (docs : List Doc), (∀ d ∈ docs, pyStrip d.question = "") →
      index_documents true none embed docs = (false, [])) := by
  constructor
  · intro client exc embed question answer h
    unfold store_question
    rw [if_pos h]
  · intro embed docs h
    unfold index_documents index_points
    rw [index_points_aux_all_empty embed docs h 0 []]
    rfl

/-- Witness for C6: storing `""` (with an answer) is rejected, and indexing
the batch containing only the whitespace question `"   "` returns `False`
with nothing upserted. -/
theorem c6_empty_question_rejection_witness :
    store_question true none (fun _ => []) "" "answer" = (false, []) ∧
    index_documents true none (fun _ => []) [⟨"   ", ""⟩] = (false, []) :=
  ⟨c6_empty_question_rejection.1 true none (fun _ => []) "" "answer"
      (by decide),
   c6_empty_question_rejection.2 (fun _ => []) [⟨"   ", ""⟩]
      (by decide)⟩

/-- C5: one `index_documents` call never sends two points with the same
content id in its single bulk upsert (the upserted ids are pairwise
distinct, first occurrence winning), and a two-element batch with identical
`(question, answer)` content upserts exactly one point — the one built from
the first occurrence (`source_index = 0`). -/
theorem c5_batch_intra_dedup :
    (∀ client exc embed docs,
      (((index_documents client exc embed docs).2).map
        PointStruct.id).Nodup) ∧
    (∀ embed (d1 d2 : Doc), pyStrip d1.question = pyStrip d2.question →
      pyStrip d1.answer = pyStrip d2.answer → pyStrip d1.question ≠ "" →
      index_documents true none embed [d1, d2] =
        (true, [⟨_generate_deterministic_id (pyStrip d1.question)
            (pyStrip d1.answer), embed (pyStrip d1.question),
            pyStrip d1.question, pyStrip d1.answer, 0⟩])) := by
  constructor
  · intro client exc embed docs
    unfold index_documents
    split
    · simp
    · split
      · simp
      · dsimp only
        split
        · simp
        · exact (index_points_aux_invariant embed docs 0 []).1
  · intro embed d1 d2 hq ha hne
    unfold index_documents
    simp [index_points, index_points_aux, ← hq, ← ha, hne]

/-- Witness for C5: the two-element batch repeating the document
`{question: "X", answer: "Y"}` upserts exactly the one point built from
index 0. -/
theorem c5_batch_intra_dedup_witness :
    index_documents true none (fun _ => []) [⟨"X", "Y"⟩, ⟨"X", "Y"⟩] =
      (true, [⟨_generate_deterministic_id (pyStrip "X") (pyStrip "Y"),
        (fun _ => ([] : List Rat)) (pyStrip "X"), pyStrip "X",
        pyStrip "Y", 0⟩]) :=
  c5_batch_intra_dedup.2 (fun _ => []) ⟨"X", "Y"⟩ ⟨"X", "Y"⟩ rfl rfl
    (by decide)

/-- C10: every point reaching the index carries the whitespace-stripped
question and answer of some input document; `store_question` also strips
when building its document before delegating (so its delegation is exactly
`index_documents` on that stripped single-element batch); and two documents
equal up to surrounding whitespace produce at most one indexed point. -/
theorem c10_stripped_payload :
    (∀ embed docs pt, pt ∈ index_points embed docs →
      ∃ d ∈ docs, pt.question = pyStrip d.question ∧
        pt.answer = pyStrip d.answer) ∧
    (∀ question answer, store_document question answer =
      ⟨pyStrip question, pyStrip answer⟩) ∧
    (∀ client exc embed question answer, pyStrip question ≠ "" →
      store_question client exc embed question answer =
        index_documents client exc embed [store_document question answer]) ∧
    (∀ embed (d1 d2 : Doc), pyStrip d1.question = pyStrip d2.question →
      pyStrip d1.answer = pyStrip d2.answer →
      (index_points embed [d1, d2]).length ≤ 1) := by
  refine ⟨?_, ?_, ?_, ?_⟩
  · intro embed docs pt h
    exact index_points_aux_mem embed docs 0 [] pt h
  · intro question answer
    unfold store_document
    by_cases h : answer = ""
    · rw [if_pos h, h]
      congr 1
    · rw [if_neg h]
  · intro client exc embed question answer h
    unfold store_question
    rw [if_neg h]
  · intro embed d1 d2 hq ha
    by_cases hq1 : pyStrip d1.question = ""
    · simp [index_points, index_points_aux, ← hq, ← ha, hq1]
    · simp [index_points, index_points_aux, ← hq, ← ha, hq1]

/-- Witness for C10: two copies of the document `("X", "Y")` decorated with
different surrounding whitespace index to at most one point. -/
theorem c10_stripped_payload_witness :
    (index_points (fun _ => []) [⟨" X ", "Y"⟩, ⟨"X", " Y "⟩]).length ≤ 1 :=
  c10_stripped_payload.2.2.2 (fun _ => []) ⟨" X ", "Y"⟩ ⟨"X", " Y "⟩
    (by decide) (by decide)

/-- C1: `check_question_exists` searches the top 5 results; an empty result
list yields `(False, None)`; the first result in rank order whose
similarity is `>=` the threshold (inclusively) is returned as
`(True, result)`; a result scoring exactly the threshold qualifies; and
when no result meets the threshold and no exact normalized match occurs,
the answer is `(False, None)`. -/
theorem c1_exists_threshold_decision :
    (∀ question (threshold : Rat),
      check_question_exists_on question threshold [] = (false, none)) ∧
    (∀ question (threshold : Rat) (results : List SearchResult) r,
      results.find? (fun x => decide (threshold ≤ x.similarity)) = some r →
      check_question_exists_on question threshold results = (true, some r)) ∧
    (∀ question (threshold : Rat) (r : SearchResult) rs,
      r.similarity = threshold →
      check_question_exists_on question threshold (r :: rs) =
        (true, some r)) ∧
    (∀ question (threshold : Rat) (results : List SearchResult),
      results.find? (fun x => decide (threshold ≤ x.similarity)) = none →
      findNormalizedMatch question results = none →
      check_question_exists_on question threshold results = (false, none)) ∧
    (∀ svc client exc hits question threshold,
      check_question_exists svc client exc hits question threshold =
        check_question_exists_on question
          (threshold.getD svc.similarity_threshold)
          (search client exc hits question 5)) := by
  refine ⟨fun _ _ => rfl, ?_, ?_, ?_, fun _ _ _ _ _ _ => rfl⟩
  · intro question threshold results r h
    have hne : results ≠ [] := by
      intro he
      rw [he] at h
      exact Option.noConfusion h
    unfold check_question_exists_on
    rw [if_neg hne, findSimilar_eq_find, h]
  · intro question threshold r rs h
    unfold check_question_exists_on findSimilar
    rw [if_neg (List.cons_ne_nil r rs), if_pos (le_of_eq h.symm)]
  · intro question threshold results hf hn
    by_cases he : results = []
    · subst he
      rfl
    · unfold check_question_exists_on
      rw [if_neg he, findSimilar_eq_find, hf, hn]

/-- Witness for C1: a single result at exactly the threshold `1` matches
inclusively, and a result scoring `0` against threshold `1` with a
different normalized text yields `(False, None)`. -/
theorem c1_exists_threshold_decision_witness :
    check_question_exists_on "q" 1 [⟨"1", "q0", "a0", 1, 1⟩] =
      (true, some ⟨"1", "q0", "a0", 1, 1⟩) ∧
    check_question_exists_on "q" 1 [⟨"1", "other", "a0", 0, 1⟩] =
      (false, none) :=
  ⟨c1_exists_threshold_decision.2.2.1 "q" 1 ⟨"1", "q0", "a0", 1, 1⟩ []
      (by decide),
   c1_exists_threshold_decision.2.2.2.1 "q" 1 [⟨"1", "other", "a0", 0, 1⟩]
      (by decide) (by decide)⟩

/-- C4: every `check_and_store_question` call returns a record whose
`action_taken` is one of the five tags, with the branch mapping of the
claim: no match and successful store tags `stored_new_question`; match plus
`force_store` plus successful store tags `stored_despite_similarity`;
match without `force_store` skips storage and tags
`skipped_similar_exists`; an attempted store that fails tags
`storage_failed`; and an unexpected exception is caught, tagged `error`
with its message attached, and never propagated. -/
theorem c4_action_taken_contract :
    ∀ svc client searchExc storeExc hits embed question answer force_store
      exc,
    ((check_and_store_question svc client searchExc storeExc hits embed
        question answer force_store exc).1.action_taken ∈
      ["stored_new_question", "stored_despite_similarity",
        "skipped_similar_exists", "storage_failed", "error"]) ∧
    (∀ e, exc = some e →
      check_and_store_question svc client searchExc storeExc hits embed
          question answer force_store exc =
        (⟨question, false, false, none, 0, "error", some e⟩, [])) ∧
    (exc = none →
      ((check_question_exists svc client searchExc hits question none).1 =
          false →
        (store_question client storeExc embed question answer).1 = true →
        (check_and_store_question svc client searchExc storeExc hits embed
          question answer force_store exc).1.action_taken =
          "stored_new_question") ∧
      ((check_question_exists svc client searchExc hits question none).1 =
          true →
        force_store = true →
        (store_question client storeExc embed question answer).1 = true →
        (check_and_store_question svc client searchExc storeExc hits embed
          question answer force_store exc).1.action_taken =
          "stored_despite_similarity") ∧
      ((check_question_exists svc client searchExc hits question none).1 =
          true →
        force_store = false →
        (check_and_store_question svc client searchExc storeExc hits embed
            question answer force_store exc).1.action_taken =
            "skipped_similar_exists" ∧
          (check_and_store_question svc client searchExc storeExc hits embed
            question answer force_store exc).1.stored = false) ∧
      (((check_question_exists svc client searchExc hits question none).1 =
            false ∨ force_store = true) →
        (store_question client storeExc embed question answer).1 = false →
        (check_and_store_question svc client searchExc storeExc hits embed
          question answer force_store exc).1.action_taken =
          "storage_failed")) := by
  intro svc client searchExc storeExc hits embed question answer
    force_store exc
  cases exc with
  | some e => simp [check_and_store_question]
  | none =>
      rcases hE : check_question_exists svc client searchExc hits question
        none with ⟨ex, data⟩
      rcases hS : store_question client storeExc embed question answer
        with ⟨st, pts⟩
      unfold check_and_store_question
      rw [hE, hS]
      cases ex <;> cases force_store <;> cases st <;> simp

/-- Witness for C4: an injected exception `"boom"` is caught and reported
as the `error` record, and a fresh store (no hits, working client) tags
`stored_new_question`. -/
theorem c4_action_taken_contract_witness :
    check_and_store_question ⟨1⟩ true none none [] (fun _ => []) "Q1" "A1"
        false (some "boom") =
      (⟨"Q1", false, false, none, 0, "error", some "boom"⟩, []) ∧
    (check_and_store_question ⟨1⟩ true none none [] (fun _ => []) "Q1" "A1"
        false none).1.action_taken = "stored_new_question" :=
  ⟨(c4_action_taken_contract ⟨1⟩ true none none [] (fun _ => []) "Q1" "A1"
      false (some "boom")).2.1 "boom" rfl,
   ((c4_action_taken_contract ⟨1⟩ true none none [] (fun _ => []) "Q1" "A1"
      false none).2.2 rfl).1 (by decide) (by decide)⟩

/-- Counterexample for C2: the distinct pairs `("a|b", "c")` and
`("a", "b|c")` produce the same concatenated content `"a|b|c"`, hence
deterministically the same id — not merely a hash collision. -/
theorem c2_content_id_counterexample :
    ("a|b", "c") ≠ (("a" : String), ("b|c" : String)) ∧
    _generate_deterministic_id "a|b" "c" =
      _generate_deterministic_id "a" "b|c" :=
  ⟨by decide, congrArg md5hex (by decide)⟩

/-- C2 (amended): the content id is a pure, deterministic,
case- and whitespace-sensitive function of the concatenation
`question + "|" + answer`: equal concatenations give equal ids; on
pipe-free questions the concatenation is injective, so distinct pairs give
distinct pre-hash contents (and hence distinct ids up to MD5 collision);
and padding a pair with surrounding whitespace always changes the pre-hash
content. Distinct pairs whose concatenations coincide (a `"|"` inside the
question) share an id exactly. -/
theorem c2_content_id_deterministic :
    (∀ question answer : String,
      _generate_deterministic_id question answer =
        _generate_deterministic_id question answer) ∧
    (∀ q a q2 a2 : String, q ++ "|" ++ a = q2 ++ "|" ++ a2 →
      _generate_deterministic_id q a = _generate_deterministic_id q2 a2) ∧
    (∀ q a q2 a2 : String, '|' ∉ q.data → '|' ∉ q2.data →
      (q ++ "|" ++ a = q2 ++ "|" ++ a2 ↔ q = q2 ∧ a = a2)) ∧
    (∀ q a w1 w2 v1 v2 : String,
      (∀ c ∈ w1.data, pyIsSpace c = true) →
      (∀ c ∈ w2.data, pyIsSpace c = true) →
      (∀ c ∈ v1.data, pyIsSpace c = true) →
      (∀ c ∈ v2.data, pyIsSpace c = true) →
      (w1 ++ q ++ w2, v1 ++ a ++ v2) ≠ (q, a) →
      (w1 ++ q ++ w2) ++ "|" ++ (v1 ++ a ++ v2) ≠ q ++ "|" ++ a) := by
  refine ⟨fun _ _ => rfl, ?_, ?_, ?_⟩
  · intro q a q2 a2 h
    unfold _generate_deterministic_id
    rw [h]
  · intro q a q2 a2 h1 h2
    constructor
    · intro h
      have hd := congrArg String.data h
      simp only [strData_append] at hd
      simp only [List.append_assoc, List.singleton_append] at hd
      obtain ⟨hq, ha⟩ := append_sep_inj h1 h2 hd
      exact ⟨String.ext hq, String.ext ha⟩
    · rintro ⟨rfl, rfl⟩
      rfl
  · intro q a w1 w2 v1 v2 hw1 hw2 hv1 hv2 hne h
    apply hne
    have hd := congrArg String.data h
    simp only [strData_append] at hd
    have hl := congrArg List.length hd
    simp only [List.length_append] at hl
    have hw1l : w1.data = [] := List.eq_nil_of_length_eq_zero (by omega)
    have hw2l : w2.data = [] := List.eq_nil_of_length_eq_zero (by omega)
    have hv1l : v1.data = [] := List.eq_nil_of_length_eq_zero (by omega)
    have hv2l : v2.data = [] := List.eq_nil_of_length_eq_zero (by omega)
    have e1 : w1 ++ q ++ w2 = q := String.ext (by
      simp [strData_append, hw1l, hw2l])
    have e2 : v1 ++ a ++ v2 = a := String.ext (by
      simp [strData_append, hv1l, hv2l])
    rw [e1, e2]

/-- Witness for C2 (amended): on the pipe-free pair `("ab", "cd")` the
content-equality criterion is reflexive, and whitespace-padding `("q", "a")`
to `(" q", "a")` changes the pre-hash content. -/
theorem c2_content_id_deterministic_witness :
    ((("ab" : String) ++ "|" ++ "cd" = "ab" ++ "|" ++ "cd") ↔
      ("ab" = "ab" ∧ "cd" = "cd")) ∧
    (" " ++ "q" ++ "" : String) ++ "|" ++ ("" ++ "a" ++ "") ≠
      "q" ++ "|" ++ "a" :=
  ⟨c2_content_id_deterministic.2.2.1 "ab" "cd" "ab" "cd" (by decide)
      (by decide),
   c2_content_id_deterministic.2.2.2 "q" "a" " " "" "" "" (by decide)
      (by decide) (by decide) (by decide) (by decide)⟩

/-- Counterexample for C3: `"a. ?"` differs from `"a. "` only by a trailing
`'?'`, yet the two normalize differently (`"a."` versus `"a"`), because
whitespace is stripped before the punctuation loop runs. -/
theorem c3_normalize_counterexample :
    ("a. " ++ "?" : String) = "a. ?" ∧
    _normalize_question "a. " = "a" ∧
    _normalize_question "a. ?" = "a." ∧
    _normalize_question "a. ?" ≠ _normalize_question "a. " :=
  ⟨by decide, by decide, by decide, by decide⟩

/-- C3 (amended): `_normalize_question` lowercases, strips surrounding
whitespace, repeatedly strips trailing `'?'`, `'.'`, `'!'`, and strips
whitespace again; two questions that differ only in case normalize to the
same string; appending trailing punctuation preserves the normalization of
any question without trailing whitespace; the spec's example pair
normalizes identically; and a top-5 result whose normalized text matches
the query forces `exists` to report `(True, result)` even when every
similarity is strictly below the threshold. -/
theorem c3_normalize_equivalence :
    (∀ q1 q2 : String, pyLower q1 = pyLower q2 →
      _normalize_question q1 = _normalize_question q2) ∧
    (∀ q p : String, rstripL q.data = q.data →
      (∀ c ∈ p.data, isTrailPunct c = true) →
      _normalize_question (q ++ p) = _normalize_question q) ∧
    (_normalize_question "What is Python?" =
      _normalize_question "what is python") ∧
    (∀ question (threshold : Rat) (results : List SearchResult) r,
      (∀ x ∈ results, x.similarity < threshold) →
      findNormalizedMatch question results = some r →
      check_question_exists_on question threshold results =
        (true, some r)) := by
  refine ⟨?_, ?_, by decide, ?_⟩
  · intro q1 q2 h
    have hd : pyLowerL q1.data = pyLowerL q2.data := congrArg String.data h
    unfold _normalize_question
    rw [← pyStripL_map_pyToLower, ← pyStripL_map_pyToLower, hd]
  · intro q p hq hp
    unfold _normalize_question
    congr 1
    rw [strData_append]
    by_cases hpe : p.data = []
    · rw [hpe, List.append_nil]
    · have hps : pyStripL (q.data ++ p.data) = lstripL q.data ++ p.data := by
        unfold pyStripL
        rw [rstripL_append_of_punct q.data p.data hpe hp]
        exact lstripL_append_of_punct q.data p.data hp
      have hql : pyStripL q.data = lstripL q.data := by
        unfold pyStripL
        rw [hq]
      have hmap : pyLowerL (lstripL q.data ++ p.data) =
          pyLowerL (lstripL q.data) ++ pyLowerL p.data :=
        List.map_append pyToLower _ _
      rw [hps, hmap, dropTrailingPunct_map_punct _ _ hp, hql]
  · intro question threshold results r h hn
    have hne := findNormalizedMatch_nil_of_eq_some hn
    unfold check_question_exists_on
    rw [if_neg hne, findSimilar_eq_none_of_lt h, hn]

/-- Witness for C3 (amended): `"AB?"` and `"ab?"` (case-variants) normalize
identically, and a top-5 result with similarity `0` against threshold `1`
whose text normalizes like the query makes `exists` answer
`(True, result)`. -/
theorem c3_normalize_equivalence_witness :
    _normalize_question "AB?" = _normalize_question "ab?" ∧
    check_question_exists_on "What is Python?" 1
        [⟨"1", "what is python", "a", 0, 1⟩] =
      (true, some ⟨"1", "what is python", "a", 0, 1⟩) :=
  ⟨c3_normalize_equivalence.1 "AB?" "ab?" (by decide),
   c3_normalize_equivalence.2.2.2 "What is Python?" 1
      [⟨"1", "what is python", "a", 0, 1⟩]
      ⟨"1", "what is python", "a", 0, 1⟩ (by decide) (by decide)⟩
